import Mathlib

/-!
Verification of the feed-extraction core of WeatherSerbiaCLI
(`weatherserbiafeed.py`).

The Python module parses entries of an RSS weather feed.  Each entry has a
`title` (format `"Station: Name"`) and a `summary` (a semicolon-separated
sequence of `"Label: value"` segments).  The function
`_extract_data_from_entry` turns one entry into a `_WeatherStationData`
record; `WeatherSerbiaFeed.stations` lists station names, and
`WeatherSerbiaFeed.observed_data_by_station` looks an observation up by
station name.

Shallow-embedding conventions used throughout this file:
* Python `str` values are modelled as `String` / `List Char`;
  `s.split(sep)` for a one-character separator is `splitOnChar`;
  `s.strip(' ')` is `stripChars`.
* Python exceptions are modelled by the error type `PyErr` inside
  `Except PyErr _`: an out-of-range subscript is `PyErr.indexError`
  (Python `IndexError`), a failing `int()` / `float()` conversion is
  `PyErr.valueError` (Python `ValueError`).
* Python `float` values are modelled as exact rationals `ℚ`; `float()` and
  `int()` are modelled on plain decimal/integer notation (optional sign,
  digits, optional fractional part), which covers every value the feed
  format described in the source comments can carry.
-/

deriving instance DecidableEq for Except

/-- Python exceptions that the extraction code can raise: `IndexError`
from an out-of-range subscript, `ValueError` from `int()`/`float()`. -/
inductive PyErr where
  | indexError : PyErr
  | valueError : PyErr
deriving DecidableEq, Repr

/-- Model of Python `str.split(sep)` for a single-character separator
`sep`: splits on every occurrence, keeping empty pieces, and yields
`[l]` when the separator does not occur (so the result is never empty). -/
def splitOnChar (sep : Char) : List Char → List (List Char)
  | [] => [[]]
  | c :: cs =>
    let r := splitOnChar sep cs
    if c = sep then [] :: r
    else
      match r with
      | [] => [[c]]
      | h :: t => (c :: h) :: t

/-- Model of Python `str.strip(' ')`: remove leading and trailing space
characters (only spaces, exactly as the source writes `strip(' ')`). -/
def stripChars (l : List Char) : List Char :=
  ((l.dropWhile (· = ' ')).reverse.dropWhile (· = ' ')).reverse

/-- Numeric value of a list of decimal digit characters (most significant
first); helper for the `int()` / `float()` models. -/
def digitsToNat (l : List Char) : Nat :=
  l.foldl (fun n c => 10 * n + (c.toNat - 48)) 0

/-- Test that every character is a decimal digit. -/
def isDigits (l : List Char) : Bool :=
  l.all (·.isDigit)

/-- Splits an optional leading sign off a numeral, returning the sign as
`1` or `-1` together with the remaining characters. -/
def takeSign : List Char → Int × List Char
  | '-' :: r => (-1, r)
  | '+' :: r => (1, r)
  | l => (1, l)

/-- Model of Python `int(s)` on decimal notation: optional surrounding
spaces, optional sign, then at least one digit; otherwise `ValueError`. -/
def pyInt (l : List Char) : Except PyErr Int :=
  let (sign, t) := takeSign (stripChars l)
  if t ≠ [] ∧ isDigits t then .ok (sign * digitsToNat t)
  else .error .valueError

/-- Model of Python `float(s)` on plain decimal notation: optional
surrounding spaces, optional sign, digits with at most one decimal point
and at least one digit overall; otherwise `ValueError`.  The value is
represented exactly as a rational. -/
def pyFloat (l : List Char) : Except PyErr ℚ :=
  let (sign, t) := takeSign (stripChars l)
  match splitOnChar '.' t with
  | [a] =>
    if a ≠ [] ∧ isDigits a then .ok (mkRat (sign * digitsToNat a) 1)
    else .error .valueError
  | [a, b] =>
    if (a ≠ [] ∨ b ≠ []) ∧ isDigits a ∧ isDigits b then
      .ok (mkRat (sign * (digitsToNat a * 10 ^ b.length + digitsToNat b))
            (10 ^ b.length))
    else .error .valueError
  | _ => .error .valueError

/-- Model of a Python list subscript `l[i]` (for the non-negative indices
the source uses): the element, or `IndexError` when out of range. -/
def pyGet (l : List α) (i : Nat) : Except PyErr α :=
  match l.get? i with
  | some x => .ok x
  | none => .error .indexError

/-- The colon-value of segment `i` of a segment list: Python
`l[i].split(':')[1]` in `Option` form (`none` = `IndexError`). -/
def segVal (l : List (List Char)) (i : Nat) : Option (List Char) :=
  (l.get? i).bind fun s => (splitOnChar ':' s).get? 1

/-- One raw RSS feed entry as delivered by the external `feedparser`
collaborator: the `title` and `summary` text fields the extractor reads. -/
structure Entry where
  title : String
  summary : String
deriving DecidableEq, Repr

/-- The `_WeatherStationData` record of the source.  Its `__init__` sets
every attribute to `None`, so each field is modelled as an `Option`
(`none` = Python `None`); the Lean field names drop the single leading
underscore of the Python attribute names. -/
structure WSD where
  stationName : Option String
  stationID : Option Int
  tempVal : Option ℚ
  tempUnits : Option String
  pressureVal : Option ℚ
  pressureUnits : Option String
  windDirection : Option String
  windSpeedVal : Option ℚ
  windSpeedUnits : Option String
  humidityVal : Option ℚ
  humidityUnits : Option String
  weatherDescription : Option String
  weatherDescriptionID : Option Int
  snowThicknessVal : Option ℚ
  snowThicknessUnits : Option String
deriving DecidableEq, Repr

/-- The constructor `_WeatherStationData.__init__`: every attribute starts as `None`. -/
def WSD.init : WSD :=
  ⟨none, none, none, none, none, none, none, none, none, none, none, none,
   none, none, none⟩

/-- The local variables of `_extract_data_from_entry` lines 61–84, named
exactly as in the source (`name`, `id`, `temp`, `press`, `windd`, `winds`,
`hum`, `desc`, `snow`, `descid`). -/
structure Pieces where
  name : List Char
  id : List Char
  temp : List (List Char)
  press : List (List Char)
  windd : List Char
  winds : List (List Char)
  hum : List (List Char)
  desc : List Char
  snow : List (List Char)
  descid : List Char
deriving DecidableEq, Repr

/-- Lines 67–72 of `_extract_data_from_entry`: the wind sentinel branch.
If the trimmed wind-direction value is `"-"`, `winds` is the constant pair
`['0', 'm/s']` and segment 4 is not touched; otherwise `winds` comes from
splitting the trimmed value of segment 4. -/
def windsOf (csvData : List (List Char)) (windd : List Char) :
    Option (List (List Char)) :=
  if stripChars windd = ['-'] then some [['0'], ['m', '/', 's']]
  else (segVal csvData 4).map fun v => splitOnChar ' ' (stripChars v)

/-- Lines 52 and 61–84 of `_extract_data_from_entry`: all subscripting and
splitting, in source order.  Every failure on these lines is an
`IndexError` (the only fallible operation is a subscript), so the stage is
written in the `Option` monad; `none` stands for `IndexError`. -/
def pieces (entry : Entry) : Option Pieces := do
  let csvData := splitOnChar ';' entry.summary.data
  -- name = entry.title.split(':')[1]
  let name ← (splitOnChar ':' entry.title.data).get? 1
  -- id = csvData[0].split(':')[1]
  let id ← segVal csvData 0
  -- temp = csvData[1].split(':')[1].strip(' ').split(' ')
  let temp ← (segVal csvData 1).map fun v => splitOnChar ' ' (stripChars v)
  -- press = csvData[2].split(':')[1].strip(' ').split(' ')
  let press ← (segVal csvData 2).map fun v => splitOnChar ' ' (stripChars v)
  -- windd = csvData[3].split(':')[1]
  let windd ← segVal csvData 3
  -- if '-' == windd.strip(' '): winds = ['0', 'm/s']
  -- else: winds = csvData[4].split(':')[1].strip(' ').split(' ')
  let winds ← windsOf csvData windd
  -- hum = csvData[5].split(':')[1].strip(' ').split(' ')
  let hum ← (segVal csvData 5).map fun v => splitOnChar ' ' (stripChars v)
  -- desc = csvData[6].split(':')[1]
  let desc ← segVal csvData 6
  -- if 'cm' == csvData[7].split(':')[1].strip(' '): snow = ['0', 'cm']
  -- else: snow = csvData[7].split(':')[1].strip(' ').split(' ')
  let snowRaw ← segVal csvData 7
  let snow :=
    if stripChars snowRaw = ['c', 'm'] then [['0'], ['c', 'm']]
    else splitOnChar ' ' (stripChars snowRaw)
  -- descid = csvData[8].split(':')[1]
  let descid ← segVal csvData 8
  pure ⟨name, id, temp, press, windd, winds, hum, desc, snow, descid⟩

/-- Lines 86–100 of `_extract_data_from_entry`: the field assignments, in
source order, including the `int()` / `float()` conversions and the
subscripts `temp[0]`, `temp[1]`, … (which can raise `IndexError` here). -/
def convert (p : Pieces) : Except PyErr WSD := do
  let observed := WSD.init
  -- observed._stationName = name.strip(' ')
  let observed := { observed with stationName := some ⟨stripChars p.name⟩ }
  -- observed._stationID = int(id.strip(' '))
  let idv ← pyInt (stripChars p.id)
  let observed := { observed with stationID := some idv }
  -- observed._tempVal = float(temp[0])
  let t0 ← pyGet p.temp 0
  let tv ← pyFloat t0
  let observed := { observed with tempVal := some tv }
  -- observed._tempUnits = temp[1]
  let tu ← pyGet p.temp 1
  let observed := { observed with tempUnits := some ⟨tu⟩ }
  -- observed._pressureVal = float(press[0])
  let r0 ← pyGet p.press 0
  let rv ← pyFloat r0
  let observed := { observed with pressureVal := some rv }
  -- observed._pressureUnits = press[1]
  let ru ← pyGet p.press 1
  let observed := { observed with pressureUnits := some ⟨ru⟩ }
  -- observed._windDirection = windd.strip(' ')
  let observed := { observed with windDirection := some ⟨stripChars p.windd⟩ }
  -- observed._windSpeedVal = float(winds[0])
  let w0 ← pyGet p.winds 0
  let wv ← pyFloat w0
  let observed := { observed with windSpeedVal := some wv }
  -- observed._windSpeedUnits = winds[1]
  let wu ← pyGet p.winds 1
  let observed := { observed with windSpeedUnits := some ⟨wu⟩ }
  -- observed._humidityVal = float(hum[0])
  let h0 ← pyGet p.hum 0
  let hv ← pyFloat h0
  let observed := { observed with humidityVal := some hv }
  -- observed._humidityUnits = hum[1]
  let hu ← pyGet p.hum 1
  let observed := { observed with humidityUnits := some ⟨hu⟩ }
  -- observed._weatherDescription = desc.strip(' ')
  let observed :=
    { observed with weatherDescription := some ⟨stripChars p.desc⟩ }
  -- observed._weatherDescriptionID = int(descid.strip(' '))
  let didv ← pyInt (stripChars p.descid)
  let observed := { observed with weatherDescriptionID := some didv }
  -- observed._snowThicknessVal = float(snow[0])
  let s0 ← pyGet p.snow 0
  let sv ← pyFloat s0
  let observed := { observed with snowThicknessVal := some sv }
  -- observed._snowThicknessUnits = snow[1]
  let su ← pyGet p.snow 1
  let observed := { observed with snowThicknessUnits := some ⟨su⟩ }
  pure observed

/-- The function `_extract_data_from_entry` (lines 46–102): the splitting/subscripting
stage (lines 52–84, `pieces`, whose only failure mode is `IndexError`)
followed by the assignment/conversion stage (lines 86–100, `convert`).
All operations of the first stage precede all operations of the second in
the source, so this staging preserves the order of observable effects. -/
def extract_data_from_entry (entry : Entry) : Except PyErr WSD :=
  match pieces entry with
  | none => .error .indexError
  | some p => convert p

/-- The trimmed station name derived from an entry title, Python
`entry.title.split(':')[1].strip(' ')`, in `Option` form (`none` =
`IndexError`, i.e. the title has no colon). -/
def stationNameOf (e : Entry) : Option String :=
  ((splitOnChar ':' e.title.data).get? 1).map fun n => ⟨stripChars n⟩

/-- The method `WeatherSerbiaFeed.stations` (lines 386–399): one trimmed title-derived
station name per feed entry, in feed order.  The parsed feed's entry list
(`self._feed.entries`, produced by the external `feedparser` collaborator)
is the `entries` parameter; a title without a colon raises `IndexError`. -/
def stations : List Entry → Except PyErr (List String)
  | [] => .ok []
  | e :: rest => do
    -- station = entry.title.split(':')[1]; stations.append(station.strip(' '))
    let station ← pyGet (splitOnChar ':' e.title.data) 1
    let others ← stations rest
    pure ((⟨stripChars station⟩ : String) :: others)

/-- The method `WeatherSerbiaFeed.observed_data_by_station` (lines 415–448): scan the
entries in feed order; on the first entry whose trimmed title-derived name
equals `stationName`, extract that entry and stop (`break`); if no entry
matches, the loop falls through and the initial `observed = None` is
returned.  Exceptions from the title subscript or from extraction
propagate. -/
def observed_data_by_station (entries : List Entry) (stationName : String) :
    Except PyErr (Option WSD) :=
  match entries with
  | [] => .ok none
  | e :: rest => do
    -- name = entry.title.split(':')[1].strip(' ')
    let name ← pyGet (splitOnChar ':' e.title.data) 1
    if (⟨stripChars name⟩ : String) = stationName then do
      -- observed = _extract_data_from_entry(entry); break
      let observed ← extract_data_from_entry e
      pure (some observed)
    else observed_data_by_station rest stationName

/-!
Model of the JSON export (`as_dictionary`, lines 255–275, and `as_json`,
lines 278–298).  Python dictionary values of these methods are `None`,
`str`, `int` or `float`; they are modelled by `JValue`.  `json.dumps` from
the standard library (an external collaborator, imported as `_js`) is
modelled by `jsDumps` with Python's default options: `", "` item
separator, `": "` key separator, ASCII-escaped strings, `repr`-style
decimal rendering of floats.
-/

/-- A JSON-serializable Python value as used by `_WeatherStationData`:
`None`, a string, an integer or a float (modelled as an exact rational). -/
inductive JValue where
  | null : JValue
  | str (s : String) : JValue
  | int (n : Int) : JValue
  | num (q : ℚ) : JValue
deriving DecidableEq, Repr

/-- An optional string attribute as a JSON value (`None` ↦ `null`). -/
def joptStr : Option String → JValue
  | none => .null
  | some s => .str s

/-- An optional integer attribute as a JSON value (`None` ↦ `null`). -/
def joptInt : Option Int → JValue
  | none => .null
  | some n => .int n

/-- An optional float attribute as a JSON value (`None` ↦ `null`). -/
def joptNum : Option ℚ → JValue
  | none => .null
  | some q => .num q

/-- A hexadecimal digit character (lowercase, as Python emits). -/
def hexDigit (n : Nat) : Char :=
  Char.ofNat (if n < 10 then 48 + n else 87 + n)

/-- Four-digit lowercase hexadecimal rendering of `n < 0x10000`. -/
def hex4 (n : Nat) : List Char :=
  [hexDigit (n / 4096 % 16), hexDigit (n / 256 % 16),
   hexDigit (n / 16 % 16), hexDigit (n % 16)]

/-- Modelled from the spec's external-collaborator JSON contract: the
escape of one character in a JSON string produced by Python `json.dumps`
with its default `ensure_ascii=True`: `"` and `\` are backslash-escaped,
the common control characters use their short escapes, other printable
ASCII is literal, and everything else becomes `\uXXXX` (a surrogate pair
beyond the basic plane). -/
def escChar (c : Char) : List Char :=
  if c = '"' then ['\\', '"']
  else if c = '\\' then ['\\', '\\']
  else if c = '\n' then ['\\', 'n']
  else if c = '\t' then ['\\', 't']
  else if c = '\r' then ['\\', 'r']
  else if c = '\x08' then ['\\', 'b']
  else if c = '\x0c' then ['\\', 'f']
  else if 0x20 ≤ c.toNat ∧ c.toNat ≤ 0x7e then [c]
  else if c.toNat < 0x10000 then '\\' :: 'u' :: hex4 c.toNat
  else ('\\' :: 'u' :: hex4 (0xd800 + (c.toNat - 0x10000) / 0x400)) ++
       ('\\' :: 'u' :: hex4 (0xdc00 + (c.toNat - 0x10000) % 0x400))

/-- A JSON string literal: quoted, characters escaped by `escChar`. -/
def jsString (s : String) : String :=
  ⟨'"' :: (s.data.flatMap escChar ++ ['"'])⟩

/-- The smallest exponent `k` with `den ∣ 10 ^ k`, when one exists (it
does whenever `den` has no prime factors besides 2 and 5, which covers
every value `pyFloat` produces). -/
def decExp (den : Nat) : Option Nat :=
  (List.range (den + 1)).find? fun k => 10 ^ k % den == 0

/-- Decimal rendering of `n`, left-padded with zeros to width `w`. -/
def padZeros (n : Nat) (w : Nat) : String :=
  (⟨List.replicate (w - (toString n).length) '0'⟩ : String) ++ toString n

/-- Modelled from the spec's external-collaborator JSON contract:
`repr`-style decimal rendering of a float by `json.dumps`, on the exact
rationals this development uses for floats: the shortest decimal expansion
(`"5.0"`, `"1013.2"`), with a fraction bar fallback for rationals that
have no finite decimal expansion (never produced by the extractor). -/
def ratRepr (q : ℚ) : String :=
  match decExp q.den with
  | some k =>
    let m := q.num.natAbs * 10 ^ k / q.den
    let sign := if q.num < 0 then "-" else ""
    if k = 0 then sign ++ toString m ++ ".0"
    else sign ++ toString (m / 10 ^ k) ++ "." ++ padZeros (m % 10 ^ k) k
  | none => toString q.num ++ "/" ++ toString q.den

/-- One JSON value rendered as `json.dumps` renders it. -/
def jsValue : JValue → String
  | .null => "null"
  | .str s => jsString s
  | .int n => toString n
  | .num q => ratRepr q

/-- Modelled from the spec's external-collaborator JSON contract:
`json.dumps` on a flat string-keyed dictionary with Python's default
separators (`", "` between items, `": "` after a key). -/
def jsDumps (d : List (String × JValue)) : String :=
  "\x7b" ++
    String.intercalate ", " (d.map fun kv => jsString kv.1 ++ ": " ++ jsValue kv.2) ++
    "\x7d"

/-- The method `_WeatherStationData.as_dictionary` (lines 255–275): the fifteen
attributes as a string-keyed mapping, in source order. -/
def WSD.as_dictionary (w : WSD) : List (String × JValue) :=
  [("stationName", joptStr w.stationName),
   ("stationID", joptInt w.stationID),
   ("tempVal", joptNum w.tempVal),
   ("tempUnits", joptStr w.tempUnits),
   ("pressureVal", joptNum w.pressureVal),
   ("pressureUnits", joptStr w.pressureUnits),
   ("windDirection", joptStr w.windDirection),
   ("windSpeedVal", joptNum w.windSpeedVal),
   ("windSpeedUnits", joptStr w.windSpeedUnits),
   ("humidityVal", joptNum w.humidityVal),
   ("humidityUnits", joptStr w.humidityUnits),
   ("weatherDescription", joptStr w.weatherDescription),
   ("weatherDescriptionID", joptInt w.weatherDescriptionID),
   ("snowThicknessVal", joptNum w.snowThicknessVal),
   ("snowThicknessUnits", joptStr w.snowThicknessUnits)]

/-- The method `_WeatherStationData.as_json` (lines 278–298): `json.dumps` applied to
a dictionary literal written out a second time in the source, repeating
the fifteen pairs of `as_dictionary` in the same order. -/
def WSD.as_json (w : WSD) : String :=
  jsDumps
    [("stationName", joptStr w.stationName),
     ("stationID", joptInt w.stationID),
     ("tempVal", joptNum w.tempVal),
     ("tempUnits", joptStr w.tempUnits),
     ("pressureVal", joptNum w.pressureVal),
     ("pressureUnits", joptStr w.pressureUnits),
     ("windDirection", joptStr w.windDirection),
     ("windSpeedVal", joptNum w.windSpeedVal),
     ("windSpeedUnits", joptStr w.windSpeedUnits),
     ("humidityVal", joptNum w.humidityVal),
     ("humidityUnits", joptStr w.humidityUnits),
     ("weatherDescription", joptStr w.weatherDescription),
     ("weatherDescriptionID", joptInt w.weatherDescriptionID),
     ("snowThicknessVal", joptNum w.snowThicknessVal),
     ("snowThicknessUnits", joptStr w.snowThicknessUnits)]

/-- The literal example entry of the spec: title `"Station: Belgrade"`
with the nine-segment summary. -/
def belgradeEntry : Entry :=
  { title := "Station: Belgrade"
    summary := "Station ID: 13274; Temperature: 5 °C; Pressure: 1013.2 hPa; Wind direction: -; Wind speed: 0 m/s; Humidity: 80 %; Weather description: Cloudy; Snow: cm; Weather description ID: 3;" }

/-- The record the Belgrade example extracts to. -/
def belgradeObs : WSD :=
  { stationName := some "Belgrade"
    stationID := some 13274
    tempVal := some 5
    tempUnits := some "°C"
    pressureVal := some (mkRat 10132 10)
    pressureUnits := some "hPa"
    windDirection := some "-"
    windSpeedVal := some 0
    windSpeedUnits := some "m/s"
    humidityVal := some 80
    humidityUnits := some "%"
    weatherDescription := some "Cloudy"
    weatherDescriptionID := some 3
    snowThicknessVal := some 0
    snowThicknessUnits := some "cm" }

/-- A title with no colon at all (the spec's malformed example). -/
def noColonEntry : Entry :=
  { title := "StationBelgrade", summary := belgradeEntry.summary }

/-- A title with two colons after the label, over the well-formed
Belgrade summary. -/
def multiColonEntry : Entry :=
  { title := "Station: Novi Sad: Rimski Sancevi"
    summary := belgradeEntry.summary }

/-- A summary with a single segment (fewer than the 9 required). -/
def shortSummaryEntry : Entry :=
  { title := "Station: Belgrade", summary := "Station ID: 13274" }

/-- The Belgrade entry with the wind-speed segment (index 4) replaced by
text that is not even a `"Label: value"` pair; every other segment and the
title are unchanged, and the wind-direction segment still carries the
`"-"` sentinel. -/
def garbledWindEntry : Entry :=
  { title := "Station: Belgrade"
    summary := "Station ID: 13274; Temperature: 5 °C; Pressure: 1013.2 hPa; Wind direction: -; Wind speed gibberish with no colon; Humidity: 80 %; Weather description: Cloudy; Snow: cm; Weather description ID: 3;" }

/-- Three entries with colon titles, unsorted, with a duplicate name. -/
def stationsEntries : List Entry :=
  [{ title := "Station: Zlatibor", summary := "a" },
   { title := "Station: Belgrade", summary := "b" },
   { title := "Station: Zlatibor", summary := "c" }]

/-- An entry list with two entries titled `"Station: Belgrade"` (the first
is the literal Belgrade example, the second differs in its station ID) and
one other station. -/
def lookupEntries : List Entry :=
  [belgradeEntry,
   { title := "Station: Belgrade"
     summary := "Station ID: 99999; Temperature: 7 °C; Pressure: 1000.0 hPa; Wind direction: N; Wind speed: 2 m/s; Humidity: 60 %; Weather description: Sunny; Snow: cm; Weather description ID: 1;" },
   { title := "Station: Nis", summary := "unused" }]

/-- Modelled from the spec's words (§4.2 step 1, as claim C2 reads it):
the entire text of the title after the first colon, trimmed; `none` when
the title has no colon. -/
def specStationName (title : String) : Option String :=
  match title.data.dropWhile (· ≠ ':') with
  | [] => none
  | _ :: rest => some ⟨stripChars rest⟩

/-! ### Supporting lemmas about the string utilities -/

theorem splitOnChar_ne_nil (sep : Char) (l : List Char) :
    splitOnChar sep l ≠ [] := by
  induction l with
  | nil => simp [splitOnChar]
  | cons c cs ih =>
    simp only [splitOnChar]
    split
    · simp
    · split
      · simp
      · simp

theorem splitOnChar_of_not_mem {sep : Char} {l : List Char} (h : sep ∉ l) :
    splitOnChar sep l = [l] := by
  induction l with
  | nil => rfl
  | cons c cs ih =>
    simp only [List.mem_cons, not_or] at h
    obtain ⟨h1, h2⟩ := h
    have hc : ¬c = sep := fun hcc => h1 hcc.symm
    simp only [splitOnChar, ih h2]
    rw [if_neg hc]

theorem two_le_splitOnChar_length {sep : Char} {l : List Char} (h : sep ∈ l) :
    2 ≤ (splitOnChar sep l).length := by
  induction l with
  | nil => simp at h
  | cons c cs ih =>
    simp only [splitOnChar]
    by_cases hc : c = sep
    · rw [if_pos hc]
      cases hr : splitOnChar sep cs with
      | nil => exact absurd hr (splitOnChar_ne_nil sep cs)
      | cons a t => simp
    · rw [if_neg hc]
      have hm : sep ∈ cs := by
        rcases List.mem_cons.mp h with h1 | h1
        · exact absurd h1.symm hc
        · exact h1
      have h2 := ih hm
      cases hr : splitOnChar sep cs with
      | nil => rw [hr] at h2; simp at h2
      | cons a t => rw [hr] at h2; simpa using h2

theorem get?_one_of_mem {sep : Char} {l : List Char} (h : sep ∈ l) :
    ∃ x, (splitOnChar sep l).get? 1 = some x := by
  have h2 := two_le_splitOnChar_length h
  cases hr : splitOnChar sep l with
  | nil => rw [hr] at h2; simp at h2
  | cons a t =>
    cases t with
    | nil => rw [hr] at h2; simp at h2
    | cons b t2 => exact ⟨b, rfl⟩

theorem segVal_some_lt {l : List (List Char)} {i : Nat} {v : List Char}
    (h : segVal l i = some v) : i < l.length := by
  unfold segVal at h
  rcases Option.bind_eq_some.mp h with ⟨s, hs, _⟩
  by_contra hlt
  rw [List.get?_eq_none.mpr (Nat.le_of_not_lt hlt)] at hs
  exact Option.noConfusion hs

/-! ### Monad-normalization lemmas -/

theorem exBind_ok {α β : Type} {x : Except PyErr α} {f : α → Except PyErr β}
    {b : β} : x >>= f = .ok b ↔ ∃ a, x = .ok a ∧ f a = .ok b := by
  change Except.bind x f = .ok b ↔ _
  cases x <;> simp [Except.bind]

theorem opBind_some {α β : Type} {x : Option α} {f : α → Option β} {b : β} :
    x >>= f = some b ↔ ∃ a, x = some a ∧ f a = some b := by
  change x.bind f = some b ↔ _
  cases x <;> simp

theorem ok_bind {α β : Type} (a : α) (f : α → Except PyErr β) :
    (Except.ok a >>= f) = f a := rfl

theorem error_bind {α β : Type} (err : PyErr) (f : α → Except PyErr β) :
    ((Except.error err : Except PyErr α) >>= f) = Except.error err := rfl

theorem bind_pure_some {α : Type} (x : Except PyErr α) :
    (x >>= fun o => pure (some o)) = x.map some := by
  cases x <;> rfl

/-! ### Inversion of the two extraction stages -/

/-- What a successful splitting/subscripting stage (`pieces`, lines 52–84)
says about the entry: each segment access succeeded, and the local
variables relate to the raw entry text exactly as the source computes
them, including the two sentinel branches for wind and snow. -/
theorem pieces_eq_some {e : Entry} {p : Pieces} (hp : pieces e = some p) :
    (splitOnChar ':' e.title.data).get? 1 = some p.name ∧
    segVal (splitOnChar ';' e.summary.data) 0 = some p.id ∧
    (∃ t1, segVal (splitOnChar ';' e.summary.data) 1 = some t1 ∧
      p.temp = splitOnChar ' ' (stripChars t1)) ∧
    (∃ r1, segVal (splitOnChar ';' e.summary.data) 2 = some r1 ∧
      p.press = splitOnChar ' ' (stripChars r1)) ∧
    segVal (splitOnChar ';' e.summary.data) 3 = some p.windd ∧
    ((stripChars p.windd = ['-'] ∧ p.winds = [['0'], ['m', '/', 's']]) ∨
     (stripChars p.windd ≠ ['-'] ∧ ∃ w4,
       segVal (splitOnChar ';' e.summary.data) 4 = some w4 ∧
       p.winds = splitOnChar ' ' (stripChars w4))) ∧
    (∃ h1, segVal (splitOnChar ';' e.summary.data) 5 = some h1 ∧
      p.hum = splitOnChar ' ' (stripChars h1)) ∧
    segVal (splitOnChar ';' e.summary.data) 6 = some p.desc ∧
    (∃ sn, segVal (splitOnChar ';' e.summary.data) 7 = some sn ∧
      ((stripChars sn = ['c', 'm'] ∧ p.snow = [['0'], ['c', 'm']]) ∨
       (stripChars sn ≠ ['c', 'm'] ∧
         p.snow = splitOnChar ' ' (stripChars sn)))) ∧
    segVal (splitOnChar ';' e.summary.data) 8 = some p.descid := by
  unfold pieces at hp
  simp only [opBind_some, Option.pure_def, Option.some.injEq] at hp
  obtain ⟨name, hname, hp⟩ := hp
  obtain ⟨id, hid, hp⟩ := hp
  obtain ⟨temp, htemp, hp⟩ := hp
  obtain ⟨press, hpress, hp⟩ := hp
  obtain ⟨windd, hwindd, hp⟩ := hp
  obtain ⟨winds, hwinds, hp⟩ := hp
  obtain ⟨hum, hhum, hp⟩ := hp
  obtain ⟨desc, hdesc, hp⟩ := hp
  obtain ⟨snowRaw, hsnowRaw, hp⟩ := hp
  obtain ⟨descid, hdescid, hp⟩ := hp
  subst hp
  obtain ⟨t1, ht1, htf⟩ := Option.map_eq_some'.mp htemp
  obtain ⟨r1, hr1, hrf⟩ := Option.map_eq_some'.mp hpress
  obtain ⟨h1, hh1, hhf⟩ := Option.map_eq_some'.mp hhum
  refine ⟨hname, hid, ⟨t1, ht1, htf.symm⟩, ⟨r1, hr1, hrf.symm⟩, hwindd, ?_,
    ⟨h1, hh1, hhf.symm⟩, hdesc, ⟨snowRaw, hsnowRaw, ?_⟩, hdescid⟩
  · unfold windsOf at hwinds
    by_cases hdir : stripChars windd = ['-']
    · rw [if_pos hdir] at hwinds
      exact Or.inl ⟨hdir, (Option.some.inj hwinds).symm⟩
    · rw [if_neg hdir] at hwinds
      obtain ⟨w4, hw4, hwf⟩ := Option.map_eq_some'.mp hwinds
      exact Or.inr ⟨hdir, w4, hw4, hwf.symm⟩
  · by_cases hsn : stripChars snowRaw = ['c', 'm']
    · rw [if_pos hsn]
      exact Or.inl ⟨hsn, rfl⟩
    · rw [if_neg hsn]
      exact Or.inr ⟨hsn, rfl⟩

/-- What a successful assignment/conversion stage (`convert`, lines
86–100) says: every conversion and subscript succeeded, and the returned
record carries exactly the fifteen values the source assigns — in
particular every field is `some`. -/
theorem convert_eq_ok {p : Pieces} {obs : WSD} (h : convert p = .ok obs) :
    ∃ idv t0 tv tu r0 rv ru w0 wv wu u0 uv uu did s0 sv su,
      pyInt (stripChars p.id) = .ok idv ∧
      pyGet p.temp 0 = .ok t0 ∧ pyFloat t0 = .ok tv ∧
      pyGet p.temp 1 = .ok tu ∧
      pyGet p.press 0 = .ok r0 ∧ pyFloat r0 = .ok rv ∧
      pyGet p.press 1 = .ok ru ∧
      pyGet p.winds 0 = .ok w0 ∧ pyFloat w0 = .ok wv ∧
      pyGet p.winds 1 = .ok wu ∧
      pyGet p.hum 0 = .ok u0 ∧ pyFloat u0 = .ok uv ∧
      pyGet p.hum 1 = .ok uu ∧
      pyInt (stripChars p.descid) = .ok did ∧
      pyGet p.snow 0 = .ok s0 ∧ pyFloat s0 = .ok sv ∧
      pyGet p.snow 1 = .ok su ∧
      obs = { stationName := some ⟨stripChars p.name⟩
              stationID := some idv
              tempVal := some tv
              tempUnits := some ⟨tu⟩
              pressureVal := some rv
              pressureUnits := some ⟨ru⟩
              windDirection := some ⟨stripChars p.windd⟩
              windSpeedVal := some wv
              windSpeedUnits := some ⟨wu⟩
              humidityVal := some uv
              humidityUnits := some ⟨uu⟩
              weatherDescription := some ⟨stripChars p.desc⟩
              weatherDescriptionID := some did
              snowThicknessVal := some sv
              snowThicknessUnits := some ⟨su⟩ } := by
  unfold convert at h
  simp only [exBind_ok] at h
  obtain ⟨idv, hidv, h⟩ := h
  obtain ⟨t0, ht0, h⟩ := h
  obtain ⟨tv, htv, h⟩ := h
  obtain ⟨tu, htu, h⟩ := h
  obtain ⟨r0, hr0, h⟩ := h
  obtain ⟨rv, hrv, h⟩ := h
  obtain ⟨ru, hru, h⟩ := h
  obtain ⟨w0, hw0, h⟩ := h
  obtain ⟨wv, hwv, h⟩ := h
  obtain ⟨wu, hwu, h⟩ := h
  obtain ⟨u0, hu0, h⟩ := h
  obtain ⟨uv, huv, h⟩ := h
  obtain ⟨uu, huu, h⟩ := h
  obtain ⟨did, hdid, h⟩ := h
  obtain ⟨s0, hs0, h⟩ := h
  obtain ⟨sv, hsv, h⟩ := h
  obtain ⟨su, hsu, h⟩ := h
  have hobs : _ = obs := Except.ok.inj h
  exact ⟨idv, t0, tv, tu, r0, rv, ru, w0, wv, wu, u0, uv, uu, did, s0, sv,
    su, hidv, ht0, htv, htu, hr0, hrv, hru, hw0, hwv, hwu, hu0, huv, huu,
    hdid, hs0, hsv, hsu, hobs.symm⟩

/-! ### Claim theorems -/

/-- C1: the literal Belgrade entry of the spec extracts successfully to a
record with station name "Belgrade", station ID 13274, temperature 5 °C,
wind direction "-" with wind speed 0, snow thickness 0 cm, and weather
description ID 3. -/
theorem c1_literal_belgrade_extraction :
    extract_data_from_entry belgradeEntry = .ok belgradeObs ∧
    belgradeObs.stationName = some "Belgrade" ∧
    belgradeObs.stationID = some 13274 ∧
    belgradeObs.tempVal = some 5 ∧
    belgradeObs.tempUnits = some "°C" ∧
    belgradeObs.windDirection = some "-" ∧
    belgradeObs.windSpeedVal = some 0 ∧
    belgradeObs.snowThicknessVal = some 0 ∧
    belgradeObs.snowThicknessUnits = some "cm" ∧
    belgradeObs.weatherDescriptionID = some 3 := by
  decide

/-- C2 counterexample: on a title with a second colon inside the station
name, extraction returns the text between the first and second colons
("Novi Sad"), not the entire trimmed text after the first colon
("Novi Sad: Rimski Sancevi") that the claim demands. -/
theorem c2_counterexample_multicolon_title :
    (extract_data_from_entry multiColonEntry).map (fun o => o.stationName) =
      .ok (some "Novi Sad") ∧
    specStationName multiColonEntry.title = some "Novi Sad: Rimski Sancevi" ∧
    ("Novi Sad" : String) ≠ "Novi Sad: Rimski Sancevi" := by
  decide

/-- C2 (amended): whenever extraction succeeds, the station name is the
trimmed text strictly between the first and second colons of the title —
element 1 of splitting the title on every colon.  This coincides with "the
entire text after the first colon" only when the title has exactly one
colon; with more colons the text from the second colon onward is
dropped. -/
theorem c2_station_name_second_colon_component (e : Entry) (obs : WSD)
    (h : extract_data_from_entry e = .ok obs) :
    obs.stationName =
      ((splitOnChar ':' e.title.data).get? 1).map
        fun n => (⟨stripChars n⟩ : String) := by
  unfold extract_data_from_entry at h
  cases hp : pieces e with
  | none => rw [hp] at h; exact absurd h (by simp)
  | some p =>
    rw [hp] at h
    obtain ⟨hname, -⟩ := pieces_eq_some hp
    obtain ⟨idv, t0, tv, tu, r0, rv, ru, w0, wv, wu, u0, uv, uu, did, s0, sv,
      su, -, -, -, -, -, -, -, -, -, -, -, -, -, -, -, -, -, hobs⟩ :=
      convert_eq_ok h
    rw [hobs, hname]
    rfl

/-- Witness for C2's amended theorem at the Belgrade example. -/
theorem c2_witness :
    extract_data_from_entry belgradeEntry = .ok belgradeObs ∧
    belgradeObs.stationName =
      ((splitOnChar ':' belgradeEntry.title.data).get? 1).map
        fun n => (⟨stripChars n⟩ : String) :=
  ⟨by decide,
   c2_station_name_second_colon_component belgradeEntry belgradeObs (by decide)⟩

/-- C3 counterexample: on the spec's colon-less title the extractor raises
the unstructured `IndexError` (from `title.split(':')[1]`); there is no
structured `MalformedTitle` error anywhere in the code. -/
theorem c3_counterexample_no_colon_title :
    extract_data_from_entry noColonEntry = .error .indexError := by
  decide

/-- C3 (amended): for every entry whose title contains no colon,
extraction raises the unstructured `IndexError`; it never returns a
record, partially filled or otherwise. -/
theorem c3_no_colon_title_fails_index_error (e : Entry)
    (h : ':' ∉ e.title.data) :
    extract_data_from_entry e = .error .indexError := by
  have hp : pieces e = none := by
    unfold pieces
    rw [splitOnChar_of_not_mem h]
    rfl
  unfold extract_data_from_entry
  rw [hp]

/-- Witness for C3's amended theorem at the concrete colon-less title. -/
theorem c3_witness :
    (':' ∉ noColonEntry.title.data) ∧
    extract_data_from_entry noColonEntry = .error .indexError :=
  ⟨by decide, c3_no_colon_title_fails_index_error noColonEntry (by decide)⟩

/-- C4 counterexample: on a one-segment summary the extractor raises the
unstructured `IndexError` (a subscript beyond `csvData`'s length); there
is no structured `MalformedSummary` error anywhere in the code. -/
theorem c4_counterexample_short_summary :
    extract_data_from_entry shortSummaryEntry = .error .indexError := by
  decide

/-- C4 (amended): for every entry whose summary splits on ';' into fewer
than 9 segments, extraction raises the unstructured `IndexError`; it never
returns a record. -/
theorem c4_short_summary_fails_index_error (e : Entry)
    (h : (splitOnChar ';' e.summary.data).length < 9) :
    extract_data_from_entry e = .error .indexError := by
  cases hp : pieces e with
  | none => unfold extract_data_from_entry; rw [hp]
  | some p =>
    exfalso
    obtain ⟨-, -, -, -, -, -, -, -, -, hdescid⟩ := pieces_eq_some hp
    exact absurd (segVal_some_lt hdescid) (by omega)

/-- Witness for C4's amended theorem at the one-segment summary. -/
theorem c4_witness :
    (splitOnChar ';' shortSummaryEntry.summary.data).length < 9 ∧
    extract_data_from_entry shortSummaryEntry = .error .indexError :=
  ⟨by decide, c4_short_summary_fails_index_error shortSummaryEntry (by decide)⟩

/-- C7: extraction is atomic — whenever the extractor returns a record,
every one of its fifteen fields has been populated (none is left at the
`None` state of `__init__`); a failing entry produces an error and no
record at all. -/
theorem c7_extraction_atomic (e : Entry) (obs : WSD)
    (h : extract_data_from_entry e = .ok obs) :
    obs.stationName.isSome ∧ obs.stationID.isSome ∧ obs.tempVal.isSome ∧
    obs.tempUnits.isSome ∧ obs.pressureVal.isSome ∧
    obs.pressureUnits.isSome ∧ obs.windDirection.isSome ∧
    obs.windSpeedVal.isSome ∧ obs.windSpeedUnits.isSome ∧
    obs.humidityVal.isSome ∧ obs.humidityUnits.isSome ∧
    obs.weatherDescription.isSome ∧ obs.weatherDescriptionID.isSome ∧
    obs.snowThicknessVal.isSome ∧ obs.snowThicknessUnits.isSome := by
  unfold extract_data_from_entry at h
  cases hp : pieces e with
  | none => rw [hp] at h; exact absurd h (by simp)
  | some p =>
    rw [hp] at h
    obtain ⟨idv, t0, tv, tu, r0, rv, ru, w0, wv, wu, u0, uv, uu, did, s0, sv,
      su, -, -, -, -, -, -, -, -, -, -, -, -, -, -, -, -, -, hobs⟩ :=
      convert_eq_ok h
    subst hobs
    simp

/-- Witness for C7 at the Belgrade example. -/
theorem c7_witness :
    extract_data_from_entry belgradeEntry = .ok belgradeObs ∧
    (belgradeObs.stationName.isSome ∧ belgradeObs.stationID.isSome ∧
     belgradeObs.tempVal.isSome ∧ belgradeObs.tempUnits.isSome ∧
     belgradeObs.pressureVal.isSome ∧ belgradeObs.pressureUnits.isSome ∧
     belgradeObs.windDirection.isSome ∧ belgradeObs.windSpeedVal.isSome ∧
     belgradeObs.windSpeedUnits.isSome ∧ belgradeObs.humidityVal.isSome ∧
     belgradeObs.humidityUnits.isSome ∧
     belgradeObs.weatherDescription.isSome ∧
     belgradeObs.weatherDescriptionID.isSome ∧
     belgradeObs.snowThicknessVal.isSome ∧
     belgradeObs.snowThicknessUnits.isSome) :=
  ⟨by decide, c7_extraction_atomic belgradeEntry belgradeObs (by decide)⟩

theorem op_some_bind {α β : Type} (a : α) (f : α → Option β) :
    (some a >>= f) = f a := rfl

theorem op_none_bind {α β : Type} (f : α → Option β) :
    ((none : Option α) >>= f) = none := rfl

theorem ex_pure {α : Type} (a : α) : (pure a : Except PyErr α) = .ok a := rfl

/-- C5: wind sentinel law.  When the trimmed wind-direction segment is the
sentinel `"-"`: (a) the extraction result does not depend on the content
of the wind-speed segment (index 4) at all — any two entries equal except
for that segment extract identically, so the segment is never parsed and
extraction succeeds or fails regardless of it; (b) any successfully
extracted record has windDirection `"-"`, windSpeedVal `0` and
windSpeedUnits `"m/s"`. -/
theorem c5_wind_sentinel_law (e₁ e₂ : Entry) (obs : WSD)
    (ht : e₁.title = e₂.title)
    (hagree : (splitOnChar ';' e₁.summary.data).set 4 [] =
      (splitOnChar ';' e₂.summary.data).set 4 [])
    (hsent : (segVal (splitOnChar ';' e₁.summary.data) 3).map stripChars =
      some ['-']) :
    extract_data_from_entry e₁ = extract_data_from_entry e₂ ∧
    (extract_data_from_entry e₁ = .ok obs →
      obs.windDirection = some "-" ∧ obs.windSpeedVal = some 0 ∧
      obs.windSpeedUnits = some "m/s") := by
  have hget : ∀ i, i ≠ 4 →
      (splitOnChar ';' e₂.summary.data).get? i =
        (splitOnChar ';' e₁.summary.data).get? i := by
    intro i hi
    rw [← List.get?_set_ne ([] : List Char) (splitOnChar ';' e₂.summary.data)
        (Ne.symm hi), ← hagree,
      List.get?_set_ne ([] : List Char) (splitOnChar ';' e₁.summary.data)
        (Ne.symm hi)]
  have hsv : ∀ i, i ≠ 4 →
      segVal (splitOnChar ';' e₂.summary.data) i =
        segVal (splitOnChar ';' e₁.summary.data) i := by
    intro i hi
    unfold segVal
    rw [hget i hi]
  have hpieces : pieces e₁ = pieces e₂ := by
    simp only [pieces]
    rw [← ht, hsv 0 (by omega), hsv 1 (by omega), hsv 2 (by omega),
      hsv 3 (by omega), hsv 5 (by omega), hsv 6 (by omega),
      hsv 7 (by omega), hsv 8 (by omega)]
    rcases hname : (splitOnChar ':' e₁.title.data).get? 1 with _ | nm
    · rfl
    · simp only [op_some_bind]
      rcases h0 : segVal (splitOnChar ';' e₁.summary.data) 0 with _ | idp
      · rfl
      · simp only [op_some_bind]
        rcases h1 : segVal (splitOnChar ';' e₁.summary.data) 1 with _ | t1
        · rfl
        · simp only [Option.map_some', op_some_bind]
          rcases h2 : segVal (splitOnChar ';' e₁.summary.data) 2 with _ | r1
          · rfl
          · simp only [Option.map_some', op_some_bind]
            rcases h3 : segVal (splitOnChar ';' e₁.summary.data) 3 with _ | wd
            · rfl
            · simp only [op_some_bind]
              rw [h3] at hsent
              have hwd : stripChars wd = ['-'] := by simpa using hsent
              have hwof :
                  windsOf (splitOnChar ';' e₂.summary.data) wd =
                    windsOf (splitOnChar ';' e₁.summary.data) wd := by
                simp only [windsOf, if_pos hwd]
              rw [hwof]
  refine ⟨?_, ?_⟩
  · unfold extract_data_from_entry
    rw [hpieces]
  · intro h
    unfold extract_data_from_entry at h
    cases hp : pieces e₁ with
    | none => rw [hp] at h; exact absurd h (by simp)
    | some p =>
      rw [hp] at h
      obtain ⟨-, -, -, -, hwindd, hwalt, -, -, -, -⟩ := pieces_eq_some hp
      rw [hwindd] at hsent
      have hwd : stripChars p.windd = ['-'] := by simpa using hsent
      have hwinds : p.winds = [['0'], ['m', '/', 's']] := by
        rcases hwalt with ⟨-, h2⟩ | ⟨hne, -⟩
        · exact h2
        · exact absurd hwd hne
      obtain ⟨idv, t0, tv, tu, r0, rv, ru, w0, wv, wu, u0, uv, uu, did, s0,
        sv, su, -, -, -, -, -, -, -, hw0, hwv, hwu, -, -, -, -, -, -, -,
        hobs⟩ := convert_eq_ok h
      rw [hwinds] at hw0 hwu
      have hw0' : w0 = ['0'] := by
        have h00 : pyGet [['0'], ['m', '/', 's']] 0 = .ok ['0'] := rfl
        exact (Except.ok.inj (h00.symm.trans hw0)).symm
      have hwu' : wu = ['m', '/', 's'] := by
        have h01 : pyGet [['0'], ['m', '/', 's']] 1 = .ok ['m', '/', 's'] :=
          rfl
        exact (Except.ok.inj (h01.symm.trans hwu)).symm
      subst hw0'
      have hwv' : wv = 0 := by
        have h00 : pyFloat ['0'] = .ok 0 := by decide
        exact (Except.ok.inj (h00.symm.trans hwv)).symm
      subst hwv'
      subst hwu'
      rw [hobs]
      refine ⟨?_, rfl, rfl⟩
      rw [hwd]

/-- Witness for C5: the Belgrade entry against the same entry with its
wind-speed segment replaced by colon-less gibberish. -/
theorem c5_witness :
    belgradeEntry.title = garbledWindEntry.title ∧
    (splitOnChar ';' belgradeEntry.summary.data).set 4 [] =
      (splitOnChar ';' garbledWindEntry.summary.data).set 4 [] ∧
    (segVal (splitOnChar ';' belgradeEntry.summary.data) 3).map stripChars =
      some ['-'] ∧
    (extract_data_from_entry belgradeEntry =
        extract_data_from_entry garbledWindEntry ∧
      (extract_data_from_entry belgradeEntry = .ok belgradeObs →
        belgradeObs.windDirection = some "-" ∧
        belgradeObs.windSpeedVal = some 0 ∧
        belgradeObs.windSpeedUnits = some "m/s")) :=
  ⟨rfl, by decide, by decide,
   c5_wind_sentinel_law belgradeEntry garbledWindEntry belgradeObs rfl
     (by decide) (by decide)⟩

/-- C6: snow sentinel law — whenever the snow segment's trimmed value is
the bare unit token "cm" and extraction succeeds, the record carries
snowThicknessVal 0 and snowThicknessUnits "cm". -/
theorem c6_snow_sentinel_law (e : Entry) (obs : WSD)
    (h : extract_data_from_entry e = .ok obs)
    (hsn : (segVal (splitOnChar ';' e.summary.data) 7).map stripChars =
      some ['c', 'm']) :
    obs.snowThicknessVal = some 0 ∧ obs.snowThicknessUnits = some "cm" := by
  unfold extract_data_from_entry at h
  cases hp : pieces e with
  | none => rw [hp] at h; exact absurd h (by simp)
  | some p =>
    rw [hp] at h
    obtain ⟨-, -, -, -, -, -, -, -, hsnpack, -⟩ := pieces_eq_some hp
    obtain ⟨sn, hsn7, hsnalt⟩ := hsnpack
    rw [hsn7] at hsn
    have hcm : stripChars sn = ['c', 'm'] := by simpa using hsn
    have hsnow : p.snow = [['0'], ['c', 'm']] := by
      rcases hsnalt with ⟨-, h2⟩ | ⟨hne, -⟩
      · exact h2
      · exact absurd hcm hne
    obtain ⟨idv, t0, tv, tu, r0, rv, ru, w0, wv, wu, u0, uv, uu, did, s0, sv,
      su, -, -, -, -, -, -, -, -, -, -, -, -, -, -, hs0, hsv2, hsu, hobs⟩ :=
      convert_eq_ok h
    rw [hsnow] at hs0 hsu
    have hs0' : s0 = ['0'] := by
      have h00 : pyGet [['0'], ['c', 'm']] 0 = .ok ['0'] := rfl
      exact (Except.ok.inj (h00.symm.trans hs0)).symm
    have hsu' : su = ['c', 'm'] := by
      have h01 : pyGet [['0'], ['c', 'm']] 1 = .ok ['c', 'm'] := rfl
      exact (Except.ok.inj (h01.symm.trans hsu)).symm
    subst hs0'
    have hsv' : sv = 0 := by
      have h00 : pyFloat ['0'] = .ok 0 := by decide
      exact (Except.ok.inj (h00.symm.trans hsv2)).symm
    subst hsv'
    subst hsu'
    rw [hobs]
    exact ⟨rfl, rfl⟩

/-- Witness for C6 at the Belgrade example (whose snow segment is the
bare "cm"). -/
theorem c6_witness :
    extract_data_from_entry belgradeEntry = .ok belgradeObs ∧
    (segVal (splitOnChar ';' belgradeEntry.summary.data) 7).map stripChars =
      some ['c', 'm'] ∧
    (belgradeObs.snowThicknessVal = some 0 ∧
      belgradeObs.snowThicknessUnits = some "cm") :=
  ⟨by decide, by decide,
   c6_snow_sentinel_law belgradeEntry belgradeObs (by decide) (by decide)⟩

/-- C8: for entries whose titles contain a colon, `stations` returns
exactly one trimmed title-derived name per entry, in the feed's original
entry order — precisely the entry list mapped through the name
derivation, so duplicates appear once per occurrence and nothing is
sorted or merged. -/
theorem c8_station_names_order_and_count (entries : List Entry)
    (h : ∀ e ∈ entries, ':' ∈ e.title.data) :
    stations entries =
      .ok (entries.map fun e => (stationNameOf e).getD "") := by
  induction entries with
  | nil => rfl
  | cons e rest ih =>
    obtain ⟨nm, hnm⟩ := get?_one_of_mem (h e (List.mem_cons_self e rest))
    have hrest := ih fun x hx => h x (List.mem_cons_of_mem e hx)
    simp only [stations, pyGet, hnm, ok_bind, hrest, ex_pure, List.map_cons,
      stationNameOf, Option.map_some', Option.getD_some]

/-- Witness for C8: three colon-titled entries, unsorted, with a
duplicate station name; the result keeps order and multiplicity. -/
theorem c8_witness :
    (∀ e ∈ stationsEntries, ':' ∈ e.title.data) ∧
    stations stationsEntries = .ok ["Zlatibor", "Belgrade", "Zlatibor"] :=
  ⟨by decide,
   (c8_station_names_order_and_count stationsEntries (by decide)).trans
     (by decide)⟩

/-- C9: `observed_data_by_station` returns the extraction of the first
entry (in feed order) whose trimmed title-derived name equals the query
exactly and case-sensitively — later duplicates are ignored — and returns
`None` when no entry's derived name equals the query. -/
theorem c9_lookup_first_match (entries : List Entry) (q : String)
    (h : ∀ e ∈ entries, ':' ∈ e.title.data) :
    observed_data_by_station entries q =
      ((entries.find? fun e => decide (stationNameOf e = some q)).map
        fun e => (extract_data_from_entry e).map some).getD (.ok none) := by
  induction entries with
  | nil => rfl
  | cons e rest ih =>
    obtain ⟨nm, hnm⟩ := get?_one_of_mem (h e (List.mem_cons_self e rest))
    have hrest := ih fun x hx => h x (List.mem_cons_of_mem e hx)
    have hsn : stationNameOf e = some ⟨stripChars nm⟩ := by
      unfold stationNameOf
      rw [hnm]
      rfl
    by_cases hq : (⟨stripChars nm⟩ : String) = q
    · have hpos : decide (stationNameOf e = some q) = true :=
        decide_eq_true (hsn.trans (congrArg some hq))
      simp only [observed_data_by_station, pyGet, hnm, ok_bind]
      rw [if_pos hq, bind_pure_some]
      simp only [List.find?, hpos, Option.map_some', Option.getD_some]
    · have hneg : decide (stationNameOf e = some q) = false :=
        decide_eq_false fun hc => hq (Option.some.inj (hsn.symm.trans hc))
      simp only [observed_data_by_station, pyGet, hnm, ok_bind]
      rw [if_neg hq, hrest]
      simp only [List.find?, hneg]

/-- Witness for C9: with two entries both titled "Station: Belgrade", the
lookup returns the extraction of the first one; a name no entry carries
returns `None`. -/
theorem c9_witness :
    (∀ e ∈ lookupEntries, ':' ∈ e.title.data) ∧
    observed_data_by_station lookupEntries "Belgrade" =
      .ok (some belgradeObs) ∧
    observed_data_by_station lookupEntries "Nonexistent" = .ok none :=
  ⟨by decide,
   (c9_lookup_first_match lookupEntries "Belgrade" (by decide)).trans
     (by decide),
   (c9_lookup_first_match lookupEntries "Nonexistent" (by decide)).trans
     (by decide)⟩

/-- C10: `as_json` returns exactly the JSON serialization of the mapping
returned by `as_dictionary` — the two export views of a record are the
same fifteen-pair mapping, one rendered through `jsDumps` (the model of
`json.dumps`), so they can never disagree on a key or a value. -/
theorem c10_as_json_serializes_as_dictionary (w : WSD) :
    w.as_json = jsDumps w.as_dictionary := rfl
